import Mathlib

/-!
Shallow embedding of the invoice-to-PDF converter (src/main.py).

The program parses an invoice number and a date out of an Excel file name,
reads the sheet named "Sheet 1" with pandas, lays the data out as FPDF cells
and returns the document together with the stem of the file name; a driver
loop (`convert` here) folds a batch of uploaded files into a dict of
successful documents and a list of error strings.

Modelling decisions:
* A spreadsheet cell is an integer, a float or a string.  Floats are
  modelled as exact decimals `m / 10^e`; every float literal appearing in
  the claims is exactly representable, and on such values IEEE addition and
  Python `str` coincide with the exact-decimal semantics used here.
* A rendered document is the ordered list of FPDF primitive calls the code
  makes (`set_font`, `set_text_color`, `cell`, `image`); the byte-level PDF
  serialisation is abstracted away.
* Exceptions are `Except String`, the string being Python `str(e)`;
  messages raised by the libraries (pandas / list indexing) are modelled
  with representative texts of the real exceptions.
* `datetime.now().strftime("%Y%m%d")` is threaded in as the `today`
  parameter.
-/

namespace PdfInv

/-- One spreadsheet cell as pandas hands it to the program: an int, a float
(an exact decimal `m / 10 ^ e`), or a string. -/
inductive Cell where
  | intVal (n : Int)
  | floatVal (m : Int) (e : Nat)
  | strVal (s : String)
deriving DecidableEq, Repr

/-- Numeric value of a cell, `none` for strings. -/
def cellVal : Cell → Option ℚ
  | .intVal n => some n
  | .floatVal m e => some ((m : ℚ) / 10 ^ e)
  | .strVal _ => none

/-- Add two exact decimals, aligning them at the larger exponent. -/
def addDec (m1 : Int) (e1 : Nat) (m2 : Int) (e2 : Nat) : Int × Nat :=
  (m1 * 10 ^ (max e1 e2 - e1) + m2 * 10 ^ (max e1 e2 - e2), max e1 e2)

/-- Python type name of a cell value, used in TypeError messages. -/
def pyTypeName : Cell → String
  | .intVal _ => "int"
  | .floatVal _ _ => "float"
  | .strVal _ => "str"

/-- Text of the TypeError Python raises for `a + b` on incompatible types. -/
def typeErrMsg (a b : Cell) : String :=
  match a with
  | .strVal _ => "can only concatenate str (not \x22" ++ pyTypeName b ++ "\x22) to str"
  | _ => "unsupported operand type(s) for +: \x27" ++ pyTypeName a ++ "\x27 and \x27" ++ pyTypeName b ++ "\x27"

/-- Python `a + b` on two cells: numeric addition (promoting to float when a
float is involved), string concatenation, and a TypeError on a mix. -/
def addCells : Cell → Cell → Except String Cell
  | .intVal a, .intVal b => .ok (.intVal (a + b))
  | .intVal a, .floatVal m e => .ok (.floatVal (addDec a 0 m e).1 (addDec a 0 m e).2)
  | .floatVal m e, .intVal b => .ok (.floatVal (addDec m e b 0).1 (addDec m e b 0).2)
  | .floatVal m1 e1, .floatVal m2 e2 =>
      .ok (.floatVal (addDec m1 e1 m2 e2).1 (addDec m1 e1 m2 e2).2)
  | .strVal s, .strVal t => .ok (.strVal (s ++ t))
  | a, b => .error (typeErrMsg a b)

/-- Left fold of `addCells` starting from a first cell, as pandas reduces a
column. -/
def sumCells : Cell → List Cell → Except String Cell
  | acc, [] => .ok acc
  | acc, c :: cs =>
    match addCells acc c with
    | .ok acc2 => sumCells acc2 cs
    | .error msg => .error msg

/-- `Series.sum()` of pandas on one column: `0` for an empty column,
otherwise the left fold of `+` over the cells (so an all-string column
concatenates, and a column mixing strings with numbers raises). -/
def colSum : List Cell → Except String Cell
  | [] => .ok (.intVal 0)
  | c :: cs => sumCells c cs

/-- The tabular payload of one sheet: a header row and the data rows. -/
structure Table where
  headers : List String
  rows : List (List Cell)
deriving DecidableEq, Repr

/-- The five column names the program reads rows by (src/main.py lines
101-105 and 108). -/
def requiredColumns : List String :=
  ["product_id", "product_name", "amount_purchased", "price_per_unit", "total_price"]

/-- True for cells that are not strings. -/
def numCell : Cell → Bool
  | .strVal _ => false
  | _ => true

/-- True exactly for float cells. -/
def floatCell : Cell → Bool
  | .floatVal _ _ => true
  | _ => false

/-- Widen an int cell to the float of the same value. -/
def toFloatCell : Cell → Cell
  | .intVal n => .floatVal n 0
  | c => c

/-- Dtype inference `pd.read_excel` performs per column: a column that is
all numeric and contains a float becomes float64, so its ints are widened;
any other column keeps its cells.  Rows are also squared off to the header
width, as pandas always yields rectangular frames. -/
def coerceTable (t : Table) : Table :=
  { headers := t.headers,
    rows := t.rows.map (fun r =>
      (List.range t.headers.length).map (fun j =>
        let col := t.rows.map (fun r2 => r2.getD j (.strVal "nan"))
        let c := r.getD j (.strVal "nan")
        if col.all numCell && col.any floatCell then toFloatCell c else c)) }

/-- `pd.read_excel(file, sheet_name="Sheet 1")` (src/main.py line 84): look
the sheet up by its exact name; a missing sheet raises the pandas
ValueError. -/
def readSheet (wb : List (String × Table)) (sheet : String) : Except String Table :=
  match wb.find? (fun p => p.1 == sheet) with
  | some p => .ok (coerceTable p.2)
  | none => .error ("Worksheet named \x27" ++ sheet ++ "\x27 not found")

/-- Indices at which a dot occurs in the character list. -/
def dotIdxs (cs : List Char) : List Nat :=
  (List.range cs.length).filter (fun j => cs.getD j ' ' = '.')

/-- `Path(name).stem` (src/main.py line 62): drop the suffix, which pathlib
defines as `name[i:]` for the last dot index `i` when `0 < i < len - 1`. -/
def pathStem (name : String) : String :=
  let cs := name.data
  match (dotIdxs cs).getLast? with
  | some i => if 0 < i ∧ i + 1 < cs.length then String.mk (cs.take i) else name
  | none => name

/-- Python `str.split("-")` on a character list: hyphens are separators,
adjacent separators give empty segments, and the empty string yields one
empty segment. -/
def splitOnDash : List Char → List (List Char)
  | [] => [[]]
  | c :: rest =>
    if c = '-' then [] :: splitOnDash rest
    else
      match splitOnDash rest with
      | [] => [[c]]
      | g :: gs => (c :: g) :: gs

/-- Python `str.split("-")`. -/
def strSplitDash (s : String) : List String := (splitOnDash s.data).map String.mk

/-- Lines 65-71 of src/main.py: split the stem on `-`; with at least two
parts the first is the invoice number and the second the date, otherwise
the whole stem is the invoice number and the date falls back to today. -/
def stemSplit (filename today : String) : String × String :=
  let parts := strSplitDash filename
  if 2 ≤ parts.length then (parts.getD 0 "", parts.getD 1 "") else (filename, today)

/-- One step of Python `str.title()`: alphabetic characters are upper-cased
after a non-alphabetic character and lower-cased otherwise. -/
def titleFold (acc : String × Bool) (c : Char) : String × Bool :=
  if c.isAlpha then
    (acc.1.push (if acc.2 then c.toLower else c.toUpper), true)
  else (acc.1.push c, false)

/-- Python `str.title()`. -/
def pyTitle (s : String) : String := (s.data.foldl titleFold ("", false)).1

/-- Python `str.replace("_", " ")`: with the one-character pattern the
source uses, this is a character map. -/
def replaceUnderscore (s : String) : String :=
  String.mk (s.data.map (fun c => if c = '_' then ' ' else c))

/-- Line 88 of src/main.py: `item.replace("_", " ").title()`. -/
def headerTransform (s : String) : String := pyTitle (replaceUnderscore s)

/-- Remove trailing decimal zeros of `m / 10 ^ e`. -/
def stripZeros : Int → Nat → Int × Nat
  | m, 0 => (m, 0)
  | m, e + 1 => if m % 10 = 0 then stripZeros (m / 10) e else (m, e + 1)

/-- Python `str()` of the float `m / 10 ^ e`: the shortest decimal form,
with `.0` appended to integral values. -/
def floatStr (m : Int) (e : Nat) : String :=
  let p := stripZeros m e
  let sign : List Char := if p.1 < 0 then ['-'] else []
  let ds := Nat.toDigits 10 p.1.natAbs
  let ds := if ds.length ≤ p.2 then List.replicate (p.2 + 1 - ds.length) '0' ++ ds else ds
  if p.2 = 0 then String.mk (sign ++ ds ++ ['.', '0'])
  else String.mk (sign ++ ds.take (ds.length - p.2) ++ ['.'] ++ ds.drop (ds.length - p.2))

/-- Python `str()` of a cell value. -/
def pyStr : Cell → String
  | .intVal n => toString n
  | .floatVal m e => floatStr m e
  | .strVal s => s

/-- One primitive FPDF call; a rendered document is the list of these calls
in the order the code makes them. -/
inductive PdfOp where
  | setFont (family : String) (size : Nat) (style : String)
  | setTextColor (r g b : Nat)
  | cell (w h : Nat) (txt : String) (border : Nat) (ln : Nat)
  | image (data : List Nat) (w : Nat)
deriving DecidableEq, Repr

/-- Lines 78-81 of src/main.py: the two bold header lines. -/
def headerOps (inv date : String) : List PdfOp :=
  [.setFont "Times" 16 "B", .cell 50 8 ("Invoice nr." ++ inv) 0 1,
   .setFont "Times" 16 "B", .cell 50 8 ("Date: " ++ date) 0 1]

/-- The five table-header cells: widths 30, 70, 30, 30, 30, labels taken
from positions 0-4 of the transformed column list. -/
def hdrRow (hs : List String) : List PdfOp :=
  [.setFont "Times" 10 "B", .setTextColor 80 80 80,
   .cell 30 8 (headerTransform (hs.getD 0 "")) 1 0,
   .cell 70 8 (headerTransform (hs.getD 1 "")) 1 0,
   .cell 30 8 (headerTransform (hs.getD 2 "")) 1 0,
   .cell 30 8 (headerTransform (hs.getD 3 "")) 1 0,
   .cell 30 8 (headerTransform (hs.getD 4 "")) 1 1]

/-- Lines 87-95 of src/main.py: the five table-header cells, taken from
positions 0-4 of the transformed column list; a shorter list raises the
IndexError of Python list indexing. -/
def headerCells (hs : List String) : Except String (List PdfOp) :=
  if 5 ≤ hs.length then .ok (hdrRow hs)
  else .error "list index out of range"

/-- `row[name]` on a pandas row: positional fetch through the header
list; a missing name raises a KeyError whose `str()` is the quoted name. -/
def rowLookup (hs : List String) (row : List Cell) (name : String) : Except String Cell :=
  match hs.findIdx? (fun h => h = name) with
  | some i => .ok (row.getD i (.strVal "nan"))
  | none => .error ("\x27" ++ name ++ "\x27")

/-- Lines 98-105 of src/main.py: one bordered row of five cells per data
row, each value fetched by its fixed column name and stringified. -/
def bodyRows (hs : List String) : List (List Cell) → Except String (List PdfOp)
  | [] => .ok []
  | r :: rs =>
    match rowLookup hs r "product_id" with
    | .error msg => .error msg
    | .ok c1 =>
    match rowLookup hs r "product_name" with
    | .error msg => .error msg
    | .ok c2 =>
    match rowLookup hs r "amount_purchased" with
    | .error msg => .error msg
    | .ok c3 =>
    match rowLookup hs r "price_per_unit" with
    | .error msg => .error msg
    | .ok c4 =>
    match rowLookup hs r "total_price" with
    | .error msg => .error msg
    | .ok c5 =>
    match bodyRows hs rs with
    | .error msg => .error msg
    | .ok rest =>
      .ok ([.setFont "Times" 10 "", .setTextColor 80 80 80,
            .cell 30 8 (pyStr c1) 1 0, .cell 70 8 (pyStr c2) 1 0,
            .cell 30 8 (pyStr c3) 1 0, .cell 30 8 (pyStr c4) 1 0,
            .cell 30 8 (pyStr c5) 1 1] ++ rest)

/-- `df[name]` on the frame: the column of cells under the given header; a
missing header raises a KeyError. -/
def getColumn (df : Table) (name : String) : Except String (List Cell) :=
  match df.headers.findIdx? (fun h => h = name) with
  | some i => .ok (df.rows.map (fun r => r.getD i (.strVal "nan")))
  | none => .error ("\x27" ++ name ++ "\x27")

/-- Line 108 of src/main.py: `df["total_price"].sum()`. -/
def totalCell (df : Table) : Except String Cell :=
  match getColumn df "total_price" with
  | .error msg => .error msg
  | .ok col => colSum col

/-- Lines 109-115 of src/main.py: the total row, four blank cells and the
stringified sum. -/
def totalRowOps (ts : Cell) : List PdfOp :=
  [.setFont "Times" 10 "", .setTextColor 80 80 80,
   .cell 30 8 "" 1 0, .cell 70 8 "" 1 0, .cell 30 8 "" 1 0, .cell 30 8 "" 1 0,
   .cell 30 8 (pyStr ts) 1 1]

/-- Lines 118-119 of src/main.py: the bold summary line. -/
def summaryOps (ts : Cell) : List PdfOp :=
  [.setFont "Times" 10 "B", .cell 30 8 ("The total price is " ++ pyStr ts) 0 1]

/-- Lines 122-123 of src/main.py: the bold company-name cell. -/
def companyOps (company : String) : List PdfOp :=
  [.setFont "Times" 10 "B", .cell 25 8 company 0 0]

/-- Lines 126-133 of src/main.py: the 10mm logo image when logo bytes were
supplied. -/
def logoOps : Option (List Nat) → List PdfOp
  | none => []
  | some d => [.image d 10]

/-- Lines 74-133 of src/main.py after the frame has been read: emit the
FPDF calls in program order; the first exception wins, in the order the
code runs (header cells, then the row loop, then the total column and its
sum). -/
def renderOps (inv date : String) (df : Table) (company : String)
    (logo : Option (List Nat)) : Except String (List PdfOp) :=
  match headerCells df.headers with
  | .error msg => .error msg
  | .ok hdr =>
  match bodyRows df.headers df.rows with
  | .error msg => .error msg
  | .ok body =>
  match getColumn df "total_price" with
  | .error msg => .error msg
  | .ok col =>
  match colSum col with
  | .error msg => .error msg
  | .ok ts =>
    .ok (headerOps inv date ++ hdr ++ body ++ totalRowOps ts ++ summaryOps ts
         ++ companyOps company ++ logoOps logo)

/-- One uploaded file: its display name and its workbook (the named
sheets). -/
structure InvoiceSource where
  name : String
  payload : List (String × Table)
deriving DecidableEq, Repr

/-- Lines 58-139 of src/main.py, `create_pdf_from_excel`: derive the stem
and the invoice number / date, read "Sheet 1", render, and return the
document with the stem; any exception is re-raised wrapped as
"Error processing {file.name}: {str(e)}". -/
def create_pdf_from_excel (file : InvoiceSource) (company_name : String)
    (logo_data : Option (List Nat)) (today : String) :
    Except String (List PdfOp × String) :=
  let filename := pathStem file.name
  let ids := stemSplit filename today
  match readSheet file.payload "Sheet 1" with
  | .error msg => .error ("Error processing " ++ file.name ++ ": " ++ msg)
  | .ok df =>
    match renderOps ids.1 ids.2 df company_name logo_data with
    | .error msg => .error ("Error processing " ++ file.name ++ ": " ++ msg)
    | .ok ops => .ok (ops, filename)

/-- The two accumulators of the convert loop: the dict of produced
documents keyed by output file name, and the error strings. -/
structure BatchResult where
  successes : List (String × List PdfOp)
  errors : List String
deriving DecidableEq, Repr

/-- Python dict assignment `d[k] = v`: replace the value in place when the
key exists (keeping its insertion position), else append. -/
def dictInsert : List (String × List PdfOp) → String → List PdfOp → List (String × List PdfOp)
  | [], k, v => [(k, v)]
  | p :: ps, k, v => if p.1 = k then (k, v) :: ps else p :: dictInsert ps k v

/-- Lines 161-172 of src/main.py: the per-file loop.  A success stores the
document under "{filename}.pdf"; an exception appends
"❌ {file.name}: {str(e)}" and the loop moves on. -/
def convertAux (company : String) (logo : Option (List Nat)) (today : String) :
    BatchResult → List InvoiceSource → BatchResult
  | acc, [] => acc
  | acc, f :: fs =>
    match create_pdf_from_excel f company logo today with
    | .ok p =>
        convertAux company logo today
          ⟨dictInsert acc.successes (p.2 ++ ".pdf") p.1, acc.errors⟩ fs
    | .error msg =>
        convertAux company logo today
          ⟨acc.successes, acc.errors ++ ["❌ " ++ f.name ++ ": " ++ msg]⟩ fs

/-- The whole batch conversion (lines 156-172 of src/main.py). -/
def convert (sources : List InvoiceSource) (company : String)
    (logo : Option (List Nat)) (today : String) : BatchResult :=
  convertAux company logo today ⟨[], []⟩ sources

/-- The output file name a source would be stored under, `none` when its
conversion fails. -/
def outKey (company : String) (logo : Option (List Nat)) (today : String)
    (f : InvoiceSource) : Option String :=
  match create_pdf_from_excel f company logo today with
  | .ok p => some (p.2 ++ ".pdf")
  | .error _ => none

/-- Document part of a conversion result, `[]` on error. -/
def extractOps : Except String (List PdfOp × String) → List PdfOp
  | .ok p => p.1
  | .error _ => []

/-- A well-formed table with the five required columns and no data rows. -/
def okTable : Table := ⟨requiredColumns, []⟩

/-- A valid source named "A.xlsx" over `okTable`. -/
def srcA : InvoiceSource := ⟨"A.xlsx", [("Sheet 1", okTable)]⟩

/-- A second table, different from `okTable`, giving a different document. -/
def tableB : Table :=
  ⟨requiredColumns,
   [[.intVal 7, .strVal "pen", .intVal 2, .intVal 3, .intVal 6]]⟩

/-- A second valid source also named "A.xlsx", so it collides with `srcA`
on the output file name "A.pdf". -/
def srcA2 : InvoiceSource := ⟨"A.xlsx", [("Sheet 1", tableB)]⟩

/-- A table whose total_price column consists only of strings. -/
def strTable : Table :=
  ⟨requiredColumns,
   [[.strVal "p1", .strVal "n1", .strVal "1", .strVal "2", .strVal "abc"],
    [.strVal "p2", .strVal "n2", .strVal "1", .strVal "2", .strVal "def"]]⟩

/-- A source whose total_price entries are the strings "abc" and "def". -/
def srcStr : InvoiceSource := ⟨"S-1.xlsx", [("Sheet 1", strTable)]⟩

/-- A source whose workbook lacks the sheet "Sheet 1" (its only sheet is
named "Sheet1"), so reading it fails. -/
def badSrc : InvoiceSource := ⟨"bad.xlsx", [("Sheet1", okTable)]⟩

/-- A valid source with a doubly-hyphenated name. -/
def c4src : InvoiceSource := ⟨"2024-001-20240115.xlsx", [("Sheet 1", okTable)]⟩

/-- A table whose total_price column holds 100, 250.5 and 49.5. -/
def c6table : Table :=
  ⟨requiredColumns,
   [[.intVal 1, .strVal "a", .intVal 1, .intVal 100, .intVal 100],
    [.intVal 2, .strVal "b", .intVal 1, .floatVal 2505 1, .floatVal 2505 1],
    [.intVal 3, .strVal "c", .intVal 1, .floatVal 495 1, .floatVal 495 1]]⟩

/-- A source over `c6table`. -/
def c6src : InvoiceSource := ⟨"2024-001.xlsx", [("Sheet 1", c6table)]⟩

/-- A six-column table (the five required names plus an extra one) whose
total_price column mixes an int with a string, so its sum raises. -/
def mix6Table : Table :=
  ⟨requiredColumns ++ ["extra_col"],
   [[.intVal 1, .strVal "n", .intVal 1, .intVal 1, .intVal 5, .intVal 0],
    [.intVal 2, .strVal "m", .intVal 1, .intVal 1, .strVal "x", .intVal 0]]⟩

/-- A source over `mix6Table`. -/
def srcMix6 : InvoiceSource := ⟨"M-1.xlsx", [("Sheet 1", mix6Table)]⟩

/-- A six-column table with an all-int total_price column, which converts
fine. -/
def good6Table : Table :=
  ⟨requiredColumns ++ ["extra_col"],
   [[.intVal 1, .strVal "n", .intVal 1, .intVal 5, .intVal 5, .intVal 0],
    [.intVal 2, .strVal "m", .intVal 2, .intVal 5, .intVal 10, .intVal 0]]⟩

/-- A source over `good6Table`. -/
def srcGood6 : InvoiceSource := ⟨"G-1.xlsx", [("Sheet 1", good6Table)]⟩

/-- Value of an aligned decimal sum. -/
theorem addDec_val (m1 : Int) (e1 : Nat) (m2 : Int) (e2 : Nat) :
    (((addDec m1 e1 m2 e2).1 : ℚ) / 10 ^ (addDec m1 e1 m2 e2).2)
      = (m1 : ℚ) / 10 ^ e1 + (m2 : ℚ) / 10 ^ e2 := by
  have h1 : e1 ≤ max e1 e2 := Nat.le_max_left _ _
  have h2 : e2 ≤ max e1 e2 := Nat.le_max_right _ _
  have t1 : (10 : ℚ) ^ (max e1 e2 - e1) * 10 ^ e1 = 10 ^ (max e1 e2) := by
    rw [← pow_add, Nat.sub_add_cancel h1]
  have t2 : (10 : ℚ) ^ (max e1 e2 - e2) * 10 ^ e2 = 10 ^ (max e1 e2) := by
    rw [← pow_add, Nat.sub_add_cancel h2]
  have hz : ((10 : ℚ) ^ (max e1 e2)) ≠ 0 := by positivity
  have hz1 : ((10 : ℚ) ^ e1) ≠ 0 := by positivity
  have hz2 : ((10 : ℚ) ^ e2) ≠ 0 := by positivity
  simp only [addDec]
  push_cast
  rw [div_add_div _ _ hz1 hz2, div_eq_div_iff hz (mul_ne_zero hz1 hz2)]
  linear_combination ((m1 : ℚ) * 10 ^ e2) * t1 + ((m2 : ℚ) * 10 ^ e1) * t2

/-- Adding two numeric cells succeeds and adds their values. -/
theorem addCells_num {a b : Cell} {x y : ℚ} (ha : cellVal a = some x)
    (hb : cellVal b = some y) :
    ∃ c, addCells a b = .ok c ∧ cellVal c = some (x + y) := by
  cases a with
  | strVal s => simp [cellVal] at ha
  | intVal n =>
    cases b with
    | strVal t => simp [cellVal] at hb
    | intVal m =>
      simp only [cellVal, Option.some.injEq] at ha hb
      refine ⟨.intVal (n + m), rfl, ?_⟩
      simp only [cellVal, Option.some.injEq]
      rw [← ha, ← hb]; push_cast; ring
    | floatVal m e =>
      simp only [cellVal, Option.some.injEq] at ha hb
      refine ⟨_, rfl, ?_⟩
      simp only [cellVal, Option.some.injEq]
      rw [addDec_val, ← ha, ← hb]; norm_num
  | floatVal m1 e1 =>
    cases b with
    | strVal t => simp [cellVal] at hb
    | intVal m =>
      simp only [cellVal, Option.some.injEq] at ha hb
      refine ⟨_, rfl, ?_⟩
      simp only [cellVal, Option.some.injEq]
      rw [addDec_val, ← ha, ← hb]; norm_num
    | floatVal m2 e2 =>
      simp only [cellVal, Option.some.injEq] at ha hb
      refine ⟨_, rfl, ?_⟩
      simp only [cellVal, Option.some.injEq]
      rw [addDec_val, ← ha, ← hb]

/-- A successful cell addition is either all-numeric or all-string. -/
theorem addCells_types {a b c : Cell} (h : addCells a b = .ok c) :
    ((cellVal a).isSome ∧ (cellVal b).isSome ∧ (cellVal c).isSome) ∨
    ((cellVal a).isNone ∧ (cellVal b).isNone ∧ (cellVal c).isNone) := by
  cases a <;> cases b <;> simp only [addCells] at h
  all_goals first
    | exact Except.noConfusion h
    | (injection h with h; subst h; simp [cellVal])

/-- Folding a numeric accumulator over numeric cells succeeds and yields
the sum of values. -/
theorem sumCells_num (cs : List Cell) : ∀ (acc : Cell) (x : ℚ),
    cellVal acc = some x → (∀ c ∈ cs, (cellVal c).isSome) →
    ∃ t, sumCells acc cs = .ok t ∧
      cellVal t = some (x + (cs.map (fun c => (cellVal c).getD 0)).sum) := by
  induction cs with
  | nil =>
    intro acc x hx _
    exact ⟨acc, rfl, by simp [hx]⟩
  | cons c cs ih =>
    intro acc x hx hall
    obtain ⟨y, hy⟩ := Option.isSome_iff_exists.mp (hall c (by simp))
    obtain ⟨acc2, ha2, hv2⟩ := addCells_num hx hy
    obtain ⟨t, ht, hvt⟩ := ih acc2 (x + y) hv2 (fun d hd => hall d (by simp [hd]))
    refine ⟨t, by simp [sumCells, ha2, ht], ?_⟩
    rw [hvt]
    congr 1
    simp [hy]
    ring

/-- A successful fold is either over all-numeric cells or all-string
cells, and its result has the same kind. -/
theorem sumCells_types (cs : List Cell) : ∀ (acc t : Cell),
    sumCells acc cs = .ok t →
    ((cellVal acc).isSome ∧ (∀ c ∈ cs, (cellVal c).isSome) ∧ (cellVal t).isSome) ∨
    ((cellVal acc).isNone ∧ (∀ c ∈ cs, (cellVal c).isNone) ∧ (cellVal t).isNone) := by
  induction cs with
  | nil =>
    intro acc t h
    simp only [sumCells] at h
    injection h with h
    subst h
    cases hv : cellVal acc with
    | none => right; simp [Option.isNone_iff_eq_none, hv]
    | some q => left; simp [hv]
  | cons c cs ih =>
    intro acc t h
    cases ha : addCells acc c with
    | error m => simp [sumCells, ha] at h
    | ok acc2 =>
      simp only [sumCells, ha] at h
      have hrest := ih acc2 t h
      have hadd := addCells_types ha
      rcases hadd with ⟨hna, hnc, hn2⟩ | ⟨hsa, hsc, hs2⟩
      · rcases hrest with ⟨_, hcs, hnt⟩ | ⟨h2none, _, _⟩
        · left
          refine ⟨hna, ?_, hnt⟩
          intro d hd
          rcases List.mem_cons.mp hd with rfl | hmem
          · exact hnc
          · exact hcs d hmem
        · rw [Option.isNone_iff_eq_none] at h2none
          simp [h2none] at hn2
      · rcases hrest with ⟨h2some, _, _⟩ | ⟨_, hcs, hst⟩
        · rw [Option.isNone_iff_eq_none] at hs2
          simp [hs2] at h2some
        · right
          refine ⟨hsa, ?_, hst⟩
          intro d hd
          rcases List.mem_cons.mp hd with rfl | hmem
          · exact hsc
          · exact hcs d hmem

/-- Inserting a fresh key appends it to the key list. -/
theorem dictInsert_map_fst_not_mem {d : List (String × List PdfOp)} {k : String}
    (h : k ∉ d.map Prod.fst) (v : List PdfOp) :
    (dictInsert d k v).map Prod.fst = d.map Prod.fst ++ [k] := by
  induction d with
  | nil => rfl
  | cons p ps ih =>
    simp only [List.map_cons, List.mem_cons, not_or] at h
    simp only [dictInsert]
    rw [if_neg (fun he => h.1 he.symm)]
    simp [ih h.2]

/-- Inserting a fresh key grows the dict by one entry. -/
theorem dictInsert_length_not_mem {d : List (String × List PdfOp)} {k : String}
    (h : k ∉ d.map Prod.fst) (v : List PdfOp) :
    (dictInsert d k v).length = d.length + 1 := by
  have h2 := congrArg List.length (dictInsert_map_fst_not_mem h v)
  simpa using h2

/-- After an insert, the key is present. -/
theorem mem_map_fst_dictInsert (d : List (String × List PdfOp)) (k : String)
    (v : List PdfOp) : k ∈ (dictInsert d k v).map Prod.fst := by
  induction d with
  | nil => simp [dictInsert]
  | cons p ps ih =>
    by_cases hp : p.1 = k
    · simp [dictInsert, hp]
    · simp only [dictInsert]
      rw [if_neg hp]
      simp [ih]

/-- Inserting a present key keeps the dict size. -/
theorem dictInsert_length_mem {d : List (String × List PdfOp)} {k : String}
    (h : k ∈ d.map Prod.fst) (v : List PdfOp) :
    (dictInsert d k v).length = d.length := by
  induction d with
  | nil => simp at h
  | cons p ps ih =>
    by_cases hp : p.1 = k
    · simp [dictInsert, hp]
    · simp only [List.map_cons, List.mem_cons] at h
      rcases h with h | h
      · exact absurd h.symm hp
      · simp only [dictInsert]
        rw [if_neg hp]
        simp [ih h]

/-- Looking up an inserted key yields the inserted value. -/
theorem lookup_dictInsert (d : List (String × List PdfOp)) (k : String)
    (v : List PdfOp) : (dictInsert d k v).lookup k = some v := by
  induction d with
  | nil => simp [dictInsert]
  | cons p ps ih =>
    by_cases hp : p.1 = k
    · simp [dictInsert, hp]
    · have hne : (k == p.1) = false := by
        rw [beq_eq_false_iff_ne]
        exact fun he => hp he.symm
      simp only [dictInsert]
      rw [if_neg hp]
      cases p with
      | mk k2 v2 =>
        simp only [List.lookup_cons, hne] at hne ⊢
        simpa using ih

/-- Fetching a present column name from a row succeeds. -/
theorem rowLookup_ok {hs : List String} {name : String} (h : name ∈ hs)
    (row : List Cell) : ∃ c, rowLookup hs row name = .ok c := by
  unfold rowLookup
  cases hf : hs.findIdx? (fun h2 => h2 = name) with
  | some i => exact ⟨_, rfl⟩
  | none =>
    rw [List.findIdx?_eq_none_iff] at hf
    have := hf name h
    simp at this

/-- When the five required names are present, the row loop succeeds on any
rows. -/
theorem bodyRows_ok {hs : List String} (hreq : ∀ n ∈ requiredColumns, n ∈ hs) :
    ∀ rows, ∃ l, bodyRows hs rows = .ok l := by
  intro rows
  induction rows with
  | nil => exact ⟨[], rfl⟩
  | cons r rs ih =>
    obtain ⟨c1, h1⟩ := rowLookup_ok (hreq "product_id" (by simp [requiredColumns])) r
    obtain ⟨c2, h2⟩ := rowLookup_ok (hreq "product_name" (by simp [requiredColumns])) r
    obtain ⟨c3, h3⟩ := rowLookup_ok (hreq "amount_purchased" (by simp [requiredColumns])) r
    obtain ⟨c4, h4⟩ := rowLookup_ok (hreq "price_per_unit" (by simp [requiredColumns])) r
    obtain ⟨c5, h5⟩ := rowLookup_ok (hreq "total_price" (by simp [requiredColumns])) r
    obtain ⟨rest, hrest⟩ := ih
    refine ⟨[.setFont "Times" 10 "", .setTextColor 80 80 80,
             .cell 30 8 (pyStr c1) 1 0, .cell 70 8 (pyStr c2) 1 0,
             .cell 30 8 (pyStr c3) 1 0, .cell 30 8 (pyStr c4) 1 0,
             .cell 30 8 (pyStr c5) 1 1] ++ rest, ?_⟩
    simp [bodyRows, h1, h2, h3, h4, h5, hrest]

/-- A long-enough header list renders the five header cells. -/
theorem headerCells_ok {hs : List String} (h5 : 5 ≤ hs.length) :
    headerCells hs = .ok (hdrRow hs) := by
  simp [headerCells, h5]

/-- A successful total was a successful column fetch followed by a
successful sum. -/
theorem totalCell_inv {df : Table} {ts : Cell} (h : totalCell df = .ok ts) :
    ∃ col, getColumn df "total_price" = .ok col ∧ colSum col = .ok ts := by
  unfold totalCell at h
  cases hg : getColumn df "total_price" with
  | error m => rw [hg] at h; exact Except.noConfusion h
  | ok col => rw [hg] at h; exact ⟨col, rfl, h⟩

/-- The render pipeline succeeds whenever the header list is long enough,
the required names are present and the total column sums. -/
theorem renderOps_ok {df : Table} {ts : Cell} (h5 : 5 ≤ df.headers.length)
    (hreq : ∀ n ∈ requiredColumns, n ∈ df.headers)
    (hts : totalCell df = .ok ts) (inv date company : String)
    (logo : Option (List Nat)) :
    ∃ body, renderOps inv date df company logo
      = .ok (headerOps inv date ++ hdrRow df.headers ++ body ++ totalRowOps ts
             ++ summaryOps ts ++ companyOps company ++ logoOps logo) := by
  obtain ⟨col, hg, hsum⟩ := totalCell_inv hts
  obtain ⟨body, hb⟩ := bodyRows_ok hreq df.rows
  exact ⟨body, by simp [renderOps, headerCells_ok h5, hb, hg, hsum]⟩

/-- Size bookkeeping of the convert loop: when the output keys of the
succeeding sources are fresh and pairwise distinct, each source grows
exactly one of the two accumulators by one. -/
theorem convertAux_counts (company : String) (logo : Option (List Nat))
    (today : String) :
    ∀ (l : List InvoiceSource) (acc : BatchResult),
      (l.filterMap (outKey company logo today)).Nodup →
      (∀ k ∈ l.filterMap (outKey company logo today),
          k ∉ acc.successes.map Prod.fst) →
      (convertAux company logo today acc l).successes.length
        + (convertAux company logo today acc l).errors.length
        = acc.successes.length + acc.errors.length + l.length := by
  intro l
  induction l with
  | nil => intro acc _ _; simp [convertAux]
  | cons f fs ih =>
    intro acc hnd hdisj
    cases hc : create_pdf_from_excel f company logo today with
    | ok p =>
      have hkey : (f :: fs).filterMap (outKey company logo today)
          = (p.2 ++ ".pdf") :: fs.filterMap (outKey company logo today) := by
        simp [List.filterMap_cons, outKey, hc]
      rw [hkey] at hnd hdisj
      rw [List.nodup_cons] at hnd
      have hknotin : (p.2 ++ ".pdf") ∉ acc.successes.map Prod.fst :=
        hdisj _ (by simp)
      have hlen := dictInsert_length_not_mem hknotin p.1
      have hkeys := dictInsert_map_fst_not_mem hknotin p.1
      have hd2 : ∀ k ∈ fs.filterMap (outKey company logo today),
          k ∉ (dictInsert acc.successes (p.2 ++ ".pdf") p.1).map Prod.fst := by
        intro k hk
        rw [hkeys]
        simp only [List.mem_append, List.mem_singleton, not_or]
        exact ⟨hdisj k (by simp [hk]), fun he => hnd.1 (he ▸ hk)⟩
      have hrec := ih ⟨dictInsert acc.successes (p.2 ++ ".pdf") p.1, acc.errors⟩
        hnd.2 hd2
      simp only [convertAux, hc]
      rw [hrec]
      simp [hlen]
      omega
    | error msg =>
      have hkey : (f :: fs).filterMap (outKey company logo today)
          = fs.filterMap (outKey company logo today) := by
        simp [List.filterMap_cons, outKey, hc]
      rw [hkey] at hnd hdisj
      have hrec := ih ⟨acc.successes, acc.errors ++ ["❌ " ++ f.name ++ ": " ++ msg]⟩
        hnd hdisj
      simp only [convertAux, hc]
      rw [hrec]
      simp
      omega

/-- Claim C1, as stated, is false: two valid sources with the same name
collide on the output file name "A.pdf", so the batch of two sources ends
with one success entry and no error entry, and the counts do not add up to
the number of sources. -/
theorem C1_counterexample :
    ¬ ((convert [srcA, srcA] "PythonHow" none "20240101").successes.length
        + (convert [srcA, srcA] "PythonHow" none "20240101").errors.length
        = [srcA, srcA].length) := by
  decide

/-- Claim C1 (amended): provided the output file names of the succeeding
sources are pairwise distinct, the number of entries in successes plus the
number of entries in errors equals the number of input sources — each
source contributes exactly one success entry or one error entry. -/
theorem C1_sum_counts (sources : List InvoiceSource) (company : String)
    (logo : Option (List Nat)) (today : String)
    (h : (sources.filterMap (outKey company logo today)).Nodup) :
    (convert sources company logo today).successes.length
      + (convert sources company logo today).errors.length
      = sources.length := by
  have hc := convertAux_counts company logo today sources ⟨[], []⟩ h (by simp)
  simpa [convert] using hc

/-- Witness for C1 on a batch of two distinct valid sources and one bad
one. -/
theorem C1_sum_counts_witness :
    (convert [srcA, c4src, badSrc] "PythonHow" none "20240101").successes.length
      + (convert [srcA, c4src, badSrc] "PythonHow" none "20240101").errors.length
      = [srcA, c4src, badSrc].length :=
  C1_sum_counts [srcA, c4src, badSrc] "PythonHow" none "20240101" (by decide)

/-- Claim C2, as stated, is false: the entry appended for a failing source
does not start with the source's name — the code prefixes "❌ " (and the
wrapped description repeats the name), so the entry is not exactly
"{sourceName}: {failure description}". -/
theorem C2_counterexample :
    (convert [badSrc] "PythonHow" none "20240101").errors.length = 1
    ∧ (((convert [badSrc] "PythonHow" none "20240101").errors.headD "").data.take 10
        ≠ "bad.xlsx: ".data) := by
  constructor
  · decide
  · decide

/-- Claim C2 (amended): when conversion of a source fails with message
`msg` (already of the form "Error processing {sourceName}: {cause}"), the
loop appends exactly the string "❌ {sourceName}: {msg}" to errors, adds
nothing to successes for that source, and continues with the remaining
sources from an otherwise unchanged state. -/
theorem C2_error_entry (acc : BatchResult) (fs : List InvoiceSource)
    (company : String) (logo : Option (List Nat)) (today : String)
    (f : InvoiceSource) (msg : String)
    (h : create_pdf_from_excel f company logo today = .error msg) :
    convertAux company logo today acc (f :: fs)
      = convertAux company logo today
          ⟨acc.successes, acc.errors ++ ["❌ " ++ f.name ++ ": " ++ msg]⟩ fs := by
  simp [convertAux, h]

/-- Witness for C2 on the source missing "Sheet 1". -/
theorem C2_error_entry_witness :
    convertAux "PythonHow" none "20240101" ⟨[], []⟩ [badSrc]
      = convertAux "PythonHow" none "20240101"
          ⟨[], ["❌ bad.xlsx: Error processing bad.xlsx: Worksheet named \x27Sheet 1\x27 not found"]⟩
          [] :=
  C2_error_entry ⟨[], []⟩ [] "PythonHow" none "20240101" badSrc
    "Error processing bad.xlsx: Worksheet named \x27Sheet 1\x27 not found" (by rfl)

/-- Claim C3, as stated, is false: a total_price column consisting only of
the strings "abc" and "def" does not fail the parse — the conversion
succeeds and the summary line carries the concatenated total "abcdef". -/
theorem C3_counterexample :
    (convert [srcStr] "PythonHow" none "20240101").errors = []
    ∧ (convert [srcStr] "PythonHow" none "20240101").successes.length = 1
    ∧ PdfOp.cell 30 8 "The total price is abcdef" 0 1
        ∈ extractOps (create_pdf_from_excel srcStr "PythonHow" none "20240101") := by
  refine ⟨by decide, by decide, by decide⟩

/-- Claim C3 (amended): when every total_price entry is numeric the column
sum succeeds and is the arithmetic sum of the values; a column mixing a
numeric entry with a non-numeric one fails (and the failure surfaces as an
error for that source); but a column of only strings concatenates silently
instead of failing. -/
theorem C3_total_sum :
    (∀ col : List Cell, (∀ c ∈ col, (cellVal c).isSome) →
        ((colSum col).toOption.bind cellVal)
          = some ((col.map (fun c => (cellVal c).getD 0)).sum))
    ∧ (∀ col : List Cell,
        (∃ c ∈ col, (cellVal c).isSome) → (∃ c ∈ col, (cellVal c).isNone) →
        (colSum col).toOption = none) := by
  constructor
  · intro col hall
    cases col with
    | nil => simp [colSum, Except.toOption, cellVal]
    | cons c cs =>
      obtain ⟨x, hx⟩ := Option.isSome_iff_exists.mp (hall c (by simp))
      obtain ⟨t, ht, hvt⟩ := sumCells_num cs c x hx (fun d hd => hall d (by simp [hd]))
      simp only [colSum, ht, Except.toOption, Option.some_bind, hvt, List.map_cons,
        List.sum_cons, hx, Option.getD_some]
  · intro col hnum hstr
    obtain ⟨n, hn, hnsome⟩ := hnum
    obtain ⟨s, hs2, hsnone⟩ := hstr
    cases hcs : colSum col with
    | error m => simp [Except.toOption]
    | ok t =>
      exfalso
      cases col with
      | nil => simp at hn
      | cons c cs =>
        have htypes := sumCells_types cs c t (by simpa [colSum] using hcs)
        rcases htypes with ⟨h1, h2, _⟩ | ⟨h1, h2, _⟩
        · rcases List.mem_cons.mp hs2 with rfl | hmem
          · rw [Option.isNone_iff_eq_none] at hsnone
            simp [hsnone] at h1
          · have := h2 s hmem
            rw [Option.isNone_iff_eq_none] at hsnone
            simp [hsnone] at this
        · rcases List.mem_cons.mp hn with rfl | hmem
          · rw [Option.isNone_iff_eq_none] at h1
            simp [h1] at hnsome
          · have := h2 n hmem
            rw [Option.isNone_iff_eq_none] at this
            simp [this] at hnsome

/-- Witness for C3: 100 + 250.5 + 49.5 sums to 400, and an int/str mix
fails. -/
theorem C3_total_sum_witness :
    ((colSum [Cell.intVal 100, Cell.floatVal 2505 1, Cell.floatVal 495 1]).toOption.bind cellVal
        = some (400 : ℚ))
    ∧ (colSum [Cell.intVal 5, Cell.strVal "x"]).toOption = none := by
  constructor
  · have h := C3_total_sum.1 [Cell.intVal 100, Cell.floatVal 2505 1, Cell.floatVal 495 1]
      (by decide)
    rw [h]
    norm_num [cellVal]
  · exact C3_total_sum.2 [Cell.intVal 5, Cell.strVal "x"]
      ⟨Cell.intVal 5, by simp, by simp [cellVal]⟩
      ⟨Cell.strVal "x", by simp, by simp [cellVal]⟩

/-- Claim C4, as stated, is false: for the hyphenated name
"2024-001-20240115.xlsx" the stored key is "2024-001-20240115.pdf" (the
whole stem), not "2024.pdf" (the invoice number). -/
theorem C4_counterexample :
    (convert [c4src] "PythonHow" none "20240101").successes.map Prod.fst
      = ["2024-001-20240115.pdf"]
    ∧ "2024-001-20240115.pdf" ≠ "2024.pdf" := by
  refine ⟨by decide, by decide⟩

/-- Claim C4 (amended): the key stored in successes for a successfully
processed source is always "{stem}.pdf" where the stem is the source name
with its extension stripped — the same stem used for parsing — regardless
of how the hyphen split went. -/
theorem C4_output_filename (acc : BatchResult) (fs : List InvoiceSource)
    (company : String) (logo : Option (List Nat)) (today : String)
    (f : InvoiceSource) (p : List PdfOp × String)
    (h : create_pdf_from_excel f company logo today = .ok p) :
    p.2 = pathStem f.name
    ∧ convertAux company logo today acc (f :: fs)
        = convertAux company logo today
            ⟨dictInsert acc.successes (pathStem f.name ++ ".pdf") p.1, acc.errors⟩
            fs := by
  have hstem : p.2 = pathStem f.name := by
    simp only [create_pdf_from_excel] at h
    cases hr : readSheet f.payload "Sheet 1" with
    | error m =>
      simp only [hr] at h
      exact Except.noConfusion h
    | ok df =>
      simp only [hr] at h
      cases ho : renderOps (stemSplit (pathStem f.name) today).1
          (stemSplit (pathStem f.name) today).2 df company logo with
      | error m =>
        simp only [ho] at h
        exact Except.noConfusion h
      | ok ops =>
        simp only [ho, Except.ok.injEq] at h
        rw [← h]
  exact ⟨hstem, by simp [convertAux, h, hstem]⟩

/-- Witness for C4 on the doubly-hyphenated source name. -/
theorem C4_output_filename_witness :
    ((create_pdf_from_excel c4src "PythonHow" none "20240101").toOption.getD ([], "")).2
        = pathStem c4src.name
    ∧ convertAux "PythonHow" none "20240101" ⟨[], []⟩ [c4src]
        = convertAux "PythonHow" none "20240101"
            ⟨dictInsert [] (pathStem c4src.name ++ ".pdf")
               ((create_pdf_from_excel c4src "PythonHow" none "20240101").toOption.getD
                 ([], "")).1,
             []⟩ [] :=
  C4_output_filename ⟨[], []⟩ [] "PythonHow" none "20240101" c4src
    ((create_pdf_from_excel c4src "PythonHow" none "20240101").toOption.getD ([], ""))
    (by rfl)

/-- Claim C5: the stem is the source name with its extension stripped, and
splitting it on "-" gives invoice number and date from the first two
segments (everything later dropped), with the whole stem and today as the
fallback; in particular "2024-001-20240115.xlsx" yields ("2024", "001")
and "INV2024.xlsx" yields ("INV2024", today). -/
theorem C5_stem_split :
    (∀ name today : String, 2 ≤ (strSplitDash (pathStem name)).length →
        stemSplit (pathStem name) today
          = ((strSplitDash (pathStem name)).getD 0 "",
             (strSplitDash (pathStem name)).getD 1 ""))
    ∧ (∀ name today : String, (strSplitDash (pathStem name)).length < 2 →
        stemSplit (pathStem name) today = (pathStem name, today))
    ∧ (∀ today : String,
        stemSplit (pathStem "2024-001-20240115.xlsx") today = ("2024", "001"))
    ∧ (∀ today : String,
        stemSplit (pathStem "INV2024.xlsx") today = ("INV2024", today)) := by
  refine ⟨?_, ?_, ?_, ?_⟩
  · intro name today h
    simp [stemSplit, h]
  · intro name today h
    have h2 : ¬ 2 ≤ (strSplitDash (pathStem name)).length := by omega
    simp [stemSplit, h2]
  · intro today
    rfl
  · intro today
    rfl

/-- Witness for C5 at the doubly-hyphenated name. -/
theorem C5_stem_split_witness :
    stemSplit (pathStem "2024-001-20240115.xlsx") "20990101"
      = ((strSplitDash (pathStem "2024-001-20240115.xlsx")).getD 0 "",
         (strSplitDash (pathStem "2024-001-20240115.xlsx")).getD 1 "") :=
  C5_stem_split.1 "2024-001-20240115.xlsx" "20990101" (by decide)

/-- Claim C6: a successfully rendered document carries the bold summary
cell "The total price is {totalPrice}" with the plain string form of the
column sum; rows with total_price 100, 250.5 and 49.5 give the summary
"The total price is 400.0" (and a total-row cell "400.0"). -/
theorem C6_summary_line :
    (∀ (inv date : String) (df : Table) (company : String)
        (logo : Option (List Nat)) (ops : List PdfOp) (ts : Cell),
        renderOps inv date df company logo = .ok ops → totalCell df = .ok ts →
        PdfOp.cell 30 8 ("The total price is " ++ pyStr ts) 0 1 ∈ ops)
    ∧ PdfOp.cell 30 8 "The total price is 400.0" 0 1
        ∈ extractOps (create_pdf_from_excel c6src "PythonHow" none "20240101")
    ∧ PdfOp.cell 30 8 "400.0" 1 1
        ∈ extractOps (create_pdf_from_excel c6src "PythonHow" none "20240101") := by
  refine ⟨?_, by decide, by decide⟩
  intro inv date df company logo ops ts hro hts
  obtain ⟨col, hg, hcs⟩ := totalCell_inv hts
  unfold renderOps at hro
  cases hh : headerCells df.headers with
  | error m =>
    simp only [hh] at hro
    exact Except.noConfusion hro
  | ok hdr =>
    simp only [hh] at hro
    cases hb : bodyRows df.headers df.rows with
    | error m =>
      simp only [hb] at hro
      exact Except.noConfusion hro
    | ok body =>
      simp only [hb, hg, hcs, Except.ok.injEq] at hro
      rw [← hro]
      simp [summaryOps]

/-- Witness for C6: the general clause instantiated at the concrete
three-row table, whose coerced total column sums to the float 400.0. -/
theorem C6_summary_line_witness :
    PdfOp.cell 30 8 ("The total price is " ++ pyStr (Cell.floatVal 4000 1)) 0 1
      ∈ extractOps (create_pdf_from_excel c6src "PythonHow" none "20240101") :=
  C6_summary_line.1 "2024" "001" (coerceTable c6table) "PythonHow" none
    (extractOps (create_pdf_from_excel c6src "PythonHow" none "20240101"))
    (Cell.floatVal 4000 1) (by rfl) (by rfl)

/-- Claim C7: conversion is deterministic — two convert runs over equal
inputs (sources, company name, logo bytes and current date) produce equal
batch results, and in particular byte-identical documents in successes. -/
theorem C7_idempotent (s1 s2 : List InvoiceSource) (c1 c2 : String)
    (l1 l2 : Option (List Nat)) (t1 t2 : String)
    (hs : s1 = s2) (hc : c1 = c2) (hl : l1 = l2) (ht : t1 = t2) :
    convert s1 c1 l1 t1 = convert s2 c2 l2 t2
    ∧ (convert s1 c1 l1 t1).successes = (convert s2 c2 l2 t2).successes := by
  subst hs
  subst hc
  subst hl
  subst ht
  exact ⟨rfl, rfl⟩

/-- Witness for C7 on a concrete batch. -/
theorem C7_idempotent_witness :
    convert [srcA] "PythonHow" none "20240101" = convert [srcA] "PythonHow" none "20240101"
    ∧ (convert [srcA] "PythonHow" none "20240101").successes
        = (convert [srcA] "PythonHow" none "20240101").successes :=
  C7_idempotent [srcA] [srcA] "PythonHow" "PythonHow" none none "20240101" "20240101"
    rfl rfl rfl rfl

/-- Claim C8: when two sources yield the same output file name, the later
one overwrites the earlier in place (last write wins), the dict gains no
second entry for the key, and no error entry is produced — shown in
general for the dict operation and concretely for two sources that both
yield stem "A". -/
theorem C8_last_write_wins :
    (∀ (d : List (String × List PdfOp)) (k : String) (v1 v2 : List PdfOp),
        (dictInsert (dictInsert d k v1) k v2).lookup k = some v2
        ∧ (dictInsert (dictInsert d k v1) k v2).length = (dictInsert d k v1).length)
    ∧ (convert [srcA, srcA2] "PythonHow" none "20240101").errors = []
    ∧ (convert [srcA, srcA2] "PythonHow" none "20240101").successes.length = 1
    ∧ (convert [srcA, srcA2] "PythonHow" none "20240101").successes.lookup "A.pdf"
        = some (extractOps (create_pdf_from_excel srcA2 "PythonHow" none "20240101")) := by
  refine ⟨?_, by decide, by decide, by decide⟩
  intro d k v1 v2
  exact ⟨lookup_dictInsert _ _ _,
         dictInsert_length_mem (mem_map_fst_dictInsert d k v1) v2⟩

/-- Claim C9, as stated, is false: a six-column table containing the five
required names can still fail — here the total_price column mixes an int
with a string, so its sum raises and the source lands in errors. -/
theorem C9_counterexample :
    5 < mix6Table.headers.length
    ∧ (∀ n ∈ requiredColumns, n ∈ mix6Table.headers)
    ∧ (convert [srcMix6] "PythonHow" none "20240101").successes = []
    ∧ (convert [srcMix6] "PythonHow" none "20240101").errors.length = 1 := by
  refine ⟨by decide, by decide, by decide, by decide⟩

/-- Claim C9 (amended): a source whose sheet has more than 5 columns but
includes the five required names converts without error provided its
total_price column sums, and the displayed header row is built from the
raw headers at positions 0-4 only — every extra column is silently
ignored and no exact-5-column check is enforced. -/
theorem C9_extra_columns (nm company today : String) (df : Table)
    (logo : Option (List Nat)) (ts : Cell)
    (h5 : 5 < df.headers.length)
    (hreq : ∀ n ∈ requiredColumns, n ∈ df.headers)
    (hts : totalCell (coerceTable df) = .ok ts) :
    (create_pdf_from_excel ⟨nm, [("Sheet 1", df)]⟩ company logo today).isOk = true
    ∧ headerCells df.headers = .ok (hdrRow df.headers) := by
  have hch : (coerceTable df).headers = df.headers := rfl
  obtain ⟨body, hro⟩ := @renderOps_ok (coerceTable df) ts
    (by rw [hch]; omega) (by rw [hch]; exact hreq) hts
    (stemSplit (pathStem nm) today).1 (stemSplit (pathStem nm) today).2 company logo
  constructor
  · have hrs : readSheet [("Sheet 1", df)] "Sheet 1" = .ok (coerceTable df) := by
      simp [readSheet]
    simp [create_pdf_from_excel, hrs, hro, Except.isOk, Except.toBool]
  · exact headerCells_ok (by omega)

/-- Witness for C9 on a concrete six-column table with an all-int total
column. -/
theorem C9_extra_columns_witness :
    (create_pdf_from_excel ⟨"G-1.xlsx", [("Sheet 1", good6Table)]⟩ "PythonHow" none
        "20240101").isOk = true
    ∧ headerCells good6Table.headers = .ok (hdrRow good6Table.headers) :=
  C9_extra_columns "G-1.xlsx" "PythonHow" "20240101" good6Table none (Cell.intVal 15)
    (by decide) (by decide) (by rfl)

/-- Claim C10: a source whose sheet has exactly the five required column
headers and no data rows converts successfully into the document with the
two header lines, the five header cells, no body rows, a total row whose
last cell is "0", the summary "The total price is 0" and the company
cell. -/
theorem C10_empty_rows (nm company today : String) :
    create_pdf_from_excel ⟨nm, [("Sheet 1", okTable)]⟩ company none today
      = .ok ([.setFont "Times" 16 "B",
              .cell 50 8 ("Invoice nr." ++ (stemSplit (pathStem nm) today).1) 0 1,
              .setFont "Times" 16 "B",
              .cell 50 8 ("Date: " ++ (stemSplit (pathStem nm) today).2) 0 1,
              .setFont "Times" 10 "B", .setTextColor 80 80 80,
              .cell 30 8 "Product Id" 1 0, .cell 70 8 "Product Name" 1 0,
              .cell 30 8 "Amount Purchased" 1 0, .cell 30 8 "Price Per Unit" 1 0,
              .cell 30 8 "Total Price" 1 1,
              .setFont "Times" 10 "", .setTextColor 80 80 80,
              .cell 30 8 "" 1 0, .cell 70 8 "" 1 0, .cell 30 8 "" 1 0,
              .cell 30 8 "" 1 0, .cell 30 8 "0" 1 1,
              .setFont "Times" 10 "B", .cell 30 8 "The total price is 0" 0 1,
              .setFont "Times" 10 "B", .cell 25 8 company 0 0],
             pathStem nm) := by
  rfl

end PdfInv
